import Mathlib

set_option maxRecDepth 8000

/-!
# Verification of the mod-notes retrieval core

Shallow embedding of the note-management service (`src/utils/vectorUtils.js`,
`src/services/noteService.js`, `src/services/vectorService.js`,
`src/routes/noteRoutes.js`, and the mongoose `Note` model) together with
proofs of the testable properties stated in the specification.

Modelling conventions:
* JavaScript strings are modelled as `List Char` (sequences of UTF-16 units);
  character codes as `Nat`.
* JavaScript numbers are IEEE-754 binary64.  Where the code manipulates
  integer-valued numbers, the rounding of an exact integer result to the
  nearest representable double is modelled exactly by `flRound`
  (round-to-nearest, ties-to-even, 53-bit significand); overflow to infinity
  (magnitude ≥ 2^1024) is outside the model.
* Where the code performs genuinely real-valued arithmetic (division by the
  vector magnitude, square roots, cosine similarity) the values are modelled
  as exact reals `ℝ`; "≈ within floating-point tolerance" statements become
  exact equalities in this idealised model.  Lean's convention `x / 0 = 0`
  stands in for the IEEE `NaN` produced by `0/0` in JavaScript: in either
  semantics the result of dividing zero by zero is not `1`.
* Fallible operations return `Except String`; external collaborators
  (document store, Qdrant client, text index) are passed in as explicit
  parameters or outcome values.
-/

namespace ModNotes

/-! ## IEEE-754 binary64 rounding of integers

`flRound n` is the value of the double nearest to the nonnegative integer
`n` (round-to-nearest, ties-to-even).  Integers below `2^53` are exact. -/

/-- Number of halvings needed to bring `n` below `2^53`; for `n ≥ 2^53` this
is the bit length of `n` minus 53, i.e. the exponent of the unit in the last
place.  The fuel `2048` exceeds the bit length of every finite double. -/
def msbExp : Nat → Nat → Nat
  | 0, _ => 0
  | fuel + 1, n => if n < 2 ^ 53 then 0 else msbExp fuel (n / 2) + 1

/-- Round a nonnegative integer to the nearest IEEE-754 binary64 value
(53-bit significand, round-to-nearest, ties-to-even).  Exact below `2^53`. -/
def flRound (n : Nat) : Nat :=
  if n < 2 ^ 53 then n
  else
    let e := msbExp 2048 n
    let q := n / 2 ^ e
    let r := n % 2 ^ e
    let half := 2 ^ (e - 1)
    (if r < half then q else if half < r then q + 1
     else if q % 2 = 0 then q else q + 1) * 2 ^ e

theorem flRound_of_lt {n : Nat} (h : n < 2 ^ 53) : flRound n = n := by
  unfold flRound
  rw [if_pos h]

/-- Double addition of integer-valued doubles: exact sum, then rounding. -/
def jsAdd (a b : Nat) : Nat := flRound (a + b)

/-- `seed` in `generateFakeEmbedding` (src/utils/vectorUtils.js:56-59):
the running double sum `seed += text.charCodeAt(i)` over the char codes. -/
def seedOf (text : List Nat) : Nat := text.foldl jsAdd 0

/-- One step of `pseudoRandom` (src/utils/vectorUtils.js:63-66) as executed
in JavaScript doubles: `random = (random * 1103515245 + 12345) & 0x7fffffff`.
The product and the sum are each rounded to the nearest double; `& 0x7fffffff`
(ToInt32 followed by clearing bit 31) keeps the value modulo `2^31`. -/
def jsStep (r : Nat) : Nat :=
  flRound (flRound (r * 1103515245) + 12345) % 2 ^ 31

/-- The same recurrence in exact integer arithmetic, masked to 31 bits
(i.e. reduced modulo `2^31`), as the specification describes it. -/
def exactStep (r : Nat) : Nat := (r * 1103515245 + 12345) % 2 ^ 31

/-- The list of the first `n` states produced by successive `pseudoRandom`
calls starting from internal state `r` (the state is updated before being
returned, so the first emitted state is `jsStep r`). -/
def lcgStates : Nat → Nat → List Nat
  | 0, _ => []
  | n + 1, r =>
    let r2 := jsStep r
    r2 :: lcgStates n r2

theorem lcgStates_length : ∀ (n r : Nat), (lcgStates n r).length = n
  | 0, _ => rfl
  | n + 1, r => by simp [lcgStates, lcgStates_length n]

theorem seedOf_eq_sum_aux :
    ∀ (t : List Nat) (acc : Nat), acc + t.sum < 2 ^ 53 →
      t.foldl jsAdd acc = acc + t.sum
  | [], acc, _ => by simp
  | c :: t, acc, h => by
    have hsum : acc + (c :: t).sum = acc + c + t.sum := by
      simp [List.sum_cons]; ring
    have hac : acc + c < 2 ^ 53 := by
      rw [hsum] at h; omega
    have : jsAdd acc c = acc + c := by
      simpa [jsAdd] using flRound_of_lt hac
    rw [List.foldl_cons, this,
        seedOf_eq_sum_aux t (acc + c) (by rw [hsum] at h; exact h)]
    exact hsum.symm

/-- When the exact character-code sum stays below `2^53` every partial sum is
exact, so the accumulated double seed equals the exact sum. -/
theorem seedOf_eq_sum {t : List Nat} (h : t.sum < 2 ^ 53) :
    seedOf t = t.sum := by
  simpa using seedOf_eq_sum_aux t 0 (by simpa using h)

/-! ## Real-valued vector math (src/utils/vectorUtils.js)

The division `random / 0x7fffffff`, the normalisation and the cosine
similarity are real-valued; they are modelled over `ℝ`. -/

/-- Sum of squares of a vector (the `reduce((sum, val) => sum + val*val, 0)`
accumulator in src/utils/vectorUtils.js:74 and the `normA`/`normB`
accumulators in `cosineSimilarity`). -/
noncomputable def sumSq (l : List ℝ) : ℝ := (l.map (fun x => x ^ 2)).sum

/-- Euclidean magnitude `Math.sqrt(sum of squares)`
(src/utils/vectorUtils.js:74). -/
noncomputable def magnitude (l : List ℝ) : ℝ := Real.sqrt (sumSq l)

/-- Division of every component by the (pre-computed) magnitude
(src/utils/vectorUtils.js:75-77). -/
noncomputable def normalize (l : List ℝ) : List ℝ :=
  l.map (fun x => x / magnitude l)

/-- One raw component `(pseudoRandom() - 0.5) * 2` of the fake embedding
(src/utils/vectorUtils.js:70), where `pseudoRandom()` returned the state `s`
divided by `0x7fffffff`. -/
noncomputable def embedComponent (s : Nat) : ℝ :=
  ((s : ℝ) / 2147483647 - 0.5) * 2

/-- The 1536 raw (pre-normalisation) components of the fake embedding
(src/utils/vectorUtils.js:69-71). -/
noncomputable def rawEmbedding (text : List Nat) : List ℝ :=
  (lcgStates 1536 (seedOf text)).map embedComponent

/-- `generateFakeEmbedding` (src/utils/vectorUtils.js:51-80): deterministic
seed from the char-code sum, 1536 LCG-driven components in [-1, 1], then
L2 normalisation. -/
noncomputable def generateFakeEmbedding (text : List Nat) : List ℝ :=
  normalize (rawEmbedding text)

/-- The JavaScript `WhiteSpace`/`LineTerminator` code points removed by
`String.prototype.trim`, as char codes. -/
def jsWhitespace (c : Nat) : Bool :=
  c = 0x20 || c = 0x09 || c = 0x0A || c = 0x0B || c = 0x0C || c = 0x0D ||
  c = 0xA0 || c = 0x1680 || (0x2000 ≤ c && c ≤ 0x200A) || c = 0x2028 ||
  c = 0x2029 || c = 0x202F || c = 0x205F || c = 0x3000 || c = 0xFEFF

/-- `generateEmbedding` (src/utils/vectorUtils.js:13-43) on the synthetic
path (no OpenAI client configured): throws when the text is empty or
whitespace-only (`!text || text.trim().length === 0`), otherwise returns the
fake embedding.  The function is pure, so two calls with the same text
return the identical vector. -/
noncomputable def generateEmbedding (text : List Nat) :
    Except String (List ℝ) :=
  if text.all jsWhitespace then
    .error "Text content is required for embedding generation"
  else
    .ok (generateFakeEmbedding text)

/-- The similarity value `dot(a,b) / (sqrt(normA) * sqrt(normB))` computed by
`cosineSimilarity` once the length check has passed
(src/utils/vectorUtils.js:93-104). -/
noncomputable def simValue (a b : List ℝ) : ℝ :=
  ((a.zip b).map (fun p => p.1 * p.2)).sum /
    (Real.sqrt (sumSq a) * Real.sqrt (sumSq b))

/-- `cosineSimilarity` (src/utils/vectorUtils.js:88-105): throws on a length
mismatch, otherwise returns the similarity. -/
noncomputable def cosineSimilarity (a b : List ℝ) : Except String ℝ :=
  if a.length ≠ b.length then .error "Vectors must have the same length"
  else .ok (simValue a b)

/-- Each `{id, embedding}` item paired with its similarity to the query,
as produced by the `map` in src/utils/vectorUtils.js:115-118. -/
noncomputable def scored (q : List ℝ) (items : List (String × List ℝ)) :
    List ((String × List ℝ) × ℝ) :=
  items.map (fun it => (it, simValue q it.2))

/-- The ordering used by `sort((a, b) => b.similarity - a.similarity)`
(src/utils/vectorUtils.js:121): `a` may precede `b` exactly when
`a.similarity ≥ b.similarity`; JavaScript's `Array.prototype.sort` is
stable, modelled by `List.mergeSort`. -/
noncomputable def simLE (a b : (String × List ℝ) × ℝ) : Bool :=
  decide (b.2 ≤ a.2)

/-- `findSimilarEmbeddings` (src/utils/vectorUtils.js:114-123): attach a
similarity to every candidate, sort descending (stably), keep the first
`limit`.  `cosineSimilarity` throws out of the enclosing `map` when any
candidate's length differs from the query's. -/
noncomputable def findSimilarEmbeddings (q : List ℝ)
    (items : List (String × List ℝ)) (limit : Nat) :
    Except String (List ((String × List ℝ) × ℝ)) :=
  if items.all (fun it => it.2.length = q.length) then
    .ok (((scored q items).mergeSort simLE).take limit)
  else
    .error "Vectors must have the same length"

/-! ## Note model and service layer (src/models/Note.js, noteService.js) -/

/-- A persisted note document.  `createdAt`/`updatedAt` are epoch
milliseconds. -/
structure NoteDoc where
  id : String
  title : List Char
  body : List Char
  tags : List (List Char)
  createdAt : Nat
  updatedAt : Nat
deriving DecidableEq

/-- The char-code whitespace predicate transported to `Char`, for
`String.prototype.trim` on JavaScript strings. -/
def wsChar (c : Char) : Bool := jsWhitespace c.toNat

/-- `String.prototype.trim`: drop leading and trailing whitespace. -/
def jsTrim (s : List Char) : List Char :=
  ((s.dropWhile wsChar).reverse.dropWhile wsChar).reverse

/-- JavaScript truthiness of a string: non-empty. -/
def truthy (s : List Char) : Bool := !s.isEmpty

/-- The lexical search result produced by `toSearchResult`
(Note model, `noteSchema.methods.toSearchResult`): the object literal
contains `id`, `title`, a truncated `body`, `createdAt` and `updatedAt`.
It contains **no** `score` property; the absence is modelled by an optional
field that the projection always leaves at `none`. -/
structure SearchResult where
  id : String
  title : List Char
  body : List Char
  createdAt : Nat
  updatedAt : Nat
  score : Option ℝ

/-- `noteSchema.methods.toSearchResult`:
`body.substring(0, 200) + (body.length > 200 ? '...' : '')`; no `score`
key appears in the returned object. -/
def toSearchResult (n : NoteDoc) : SearchResult :=
  { id := n.id
    title := n.title
    body := n.body.take 200 ++
      (if 200 < n.body.length then ['.', '.', '.'] else [])
    createdAt := n.createdAt
    updatedAt := n.updatedAt
    score := none }

/-- `NoteService.searchNotes` (src/services/noteService.js:96-124).  The
document store's two search primitives are passed in as outcomes: the
weighted text-index query may fail (`textOutcome`), the regex fallback
returns `regexNotes`.  A blank query returns `[]`; in default mode a
text-index failure falls back to the regex results; every returned note is
projected through `toSearchResult`. -/
def searchNotes (query : List Char) (useRegex : Bool)
    (textOutcome : Except String (List NoteDoc))
    (regexNotes : List NoteDoc) : Except String (List SearchResult) :=
  if (jsTrim query).isEmpty then
    .ok []
  else if useRegex then
    .ok (regexNotes.map toSearchResult)
  else
    match textOutcome with
    | .ok notes => .ok (notes.map toSearchResult)
    | .error _ => .ok (regexNotes.map toSearchResult)

/-- The `PUT /notes/:id` update payload: `{title?, body?, tags?}`; `none`
models an absent (`undefined`) field. -/
structure UpdatePayload where
  title : Option (List Char) := none
  body : Option (List Char) := none
  tags : Option (List (List Char)) := none

/-- The update applied by `NoteService.updateNote`
(src/services/noteService.js:132-157): `updatedAt` is always set; `title`
and `body` are replaced (trimmed) only when present and truthy (`if (title)`,
`if (body)` — an empty string is falsy); `tags` is replaced whenever present
(`if (tags)` — any array, including `[]`, is truthy), trimmed and with empty
entries filtered out (`filter(Boolean)`). -/
def applyUpdate (n : NoteDoc) (d : UpdatePayload) (now : Nat) : NoteDoc :=
  { n with
    updatedAt := now
    title := match d.title with
      | some t => if truthy t then jsTrim t else n.title
      | none => n.title
    body := match d.body with
      | some b => if truthy b then jsTrim b else n.body
      | none => n.body
    tags := match d.tags with
      | some ts => (ts.map jsTrim).filter (fun t => truthy t)
      | none => n.tags }

/-- `NoteService.updateNote`: `findByIdAndUpdate(id, updateObj, {new: true})`
over a document store modelled as a list of notes; returns the updated store
and the updated document (`none` when the id does not match any note). -/
def updateNote (store : List NoteDoc) (id : String) (d : UpdatePayload)
    (now : Nat) : List NoteDoc × Option NoteDoc :=
  match store.find? (fun n => n.id = id) with
  | none => (store, none)
  | some n =>
    let n2 := applyUpdate n d now
    (store.map (fun m => if m.id = id then n2 else m), some n2)

/-! ## Route handlers and vector-index side effects
(src/routes/noteRoutes.js, src/services/vectorService.js) -/

/-- Operations issued to the Qdrant client by `VectorService`
(`upsert` from `indexNote`, `delete` from `removeNote`). -/
inductive VectorOp where
  | upsert (id : String)
  | remove (id : String)
deriving DecidableEq

/-- Responses of the `PUT /notes/:id` handler. -/
inductive PutResponse where
  | okNote (n : NoteDoc)
  | notFound
deriving DecidableEq

/-- The `PUT /notes/:id` handler (src/routes/noteRoutes.js:333-381): it
calls `noteService.updateNote` and replies 200 with the updated note or 404;
the handler body contains no call into `vectorService`, so the list of
vector-index operations it issues is recorded alongside the response. -/
def putNoteHandler (store : List NoteDoc) (id : String) (d : UpdatePayload)
    (now : Nat) : List NoteDoc × PutResponse × List VectorOp :=
  match updateNote store id d now with
  | (store2, none) => (store2, .notFound, [])
  | (store2, some n) => (store2, .okNote n, [])

/-- Vector-index operations issued by `VectorService.indexNote`
(src/services/vectorService.js:71-101): skipped entirely when the service
is not initialized, otherwise a single upsert keyed by the note id. -/
def indexNoteOps (isInitialized : Bool) (id : String) : List VectorOp :=
  if isInitialized then [.upsert id] else []

/-- `VectorService.healthCheck` (src/services/vectorService.js:189-201):
false when the service is not initialized or the `getCollections` probe
fails, true otherwise. -/
def healthCheck (isInitialized probeOk : Bool) : Bool :=
  isInitialized && probeOk

/-- One hit returned by `VectorService.vectorSearch`. -/
structure VectorHit where
  id : String
  score : ℝ
  title : List Char
  body : List Char
  createdAt : Nat

/-- Calls the `GET /notes/vector-search` handler can place into other
services; `lexicalQuery` (i.e. `noteService.searchNotes`) is in the
alphabet to express that the handler never places it. -/
inductive ServiceCall where
  | health
  | vectorQuery
  | lexicalQuery
deriving DecidableEq

/-- Responses of the `GET /notes/vector-search` handler. -/
inductive VSResponse where
  | badRequest
  | unavailable
  | ok (hits : List VectorHit)
  | serverError

/-- The `GET /notes/vector-search` handler (src/routes/noteRoutes.js:293-330):
400 for a blank query; otherwise it awaits `vectorService.healthCheck` and
replies 503 (`Service Unavailable`) when the probe reports unhealthy; only
when healthy does it run `vectorService.vectorSearch` (whose outcome is the
`searchOutcome` parameter), with errors mapped to 500.  The second component
records which services were called. -/
def vectorSearchHandler (q : List Char) (healthy : Bool)
    (searchOutcome : Except String (List VectorHit)) :
    VSResponse × List ServiceCall :=
  if (jsTrim q).isEmpty then
    (.badRequest, [])
  else if healthy = false then
    (.unavailable, [.health])
  else
    match searchOutcome with
    | .ok hits => (.ok hits, [.health, .vectorQuery])
    | .error _ => (.serverError, [.health, .vectorQuery])

/-! ## Helper lemmas -/

theorem sumSq_nonneg (l : List ℝ) : 0 ≤ sumSq l := by
  refine List.sum_nonneg ?_
  intro x hx
  obtain ⟨y, _, rfl⟩ := List.mem_map.mp hx
  exact sq_nonneg y

theorem sumSq_cons (x : ℝ) (l : List ℝ) :
    sumSq (x :: l) = x ^ 2 + sumSq l := by
  simp [sumSq]

theorem sumSq_pos_of_mem {l : List ℝ} {x : ℝ} (hx : x ∈ l) (hne : x ≠ 0) :
    0 < sumSq l := by
  induction l with
  | nil => cases hx
  | cons y ys ih =>
    rw [sumSq_cons]
    rcases List.mem_cons.mp hx with h | h
    · subst h
      exact add_pos_of_pos_of_nonneg (pow_two_pos_of_ne_zero hne)
        (sumSq_nonneg ys)
    · exact add_pos_of_nonneg_of_pos (sq_nonneg y) (ih h)

theorem sumSq_map_div (l : List ℝ) (m : ℝ) :
    sumSq (l.map (fun x => x / m)) = sumSq l / m ^ 2 := by
  induction l with
  | nil => simp [sumSq]
  | cons x xs ih =>
    rw [List.map_cons, sumSq_cons, sumSq_cons, ih, div_pow, div_add_div_same]

/-- Normalising a vector of positive sum of squares yields a unit vector. -/
theorem magnitude_normalize {l : List ℝ} (h : 0 < sumSq l) :
    magnitude (normalize l) = 1 := by
  have hsq : Real.sqrt (sumSq l) ^ 2 = sumSq l := Real.sq_sqrt h.le
  have : sumSq (normalize l) = 1 := by
    rw [normalize, sumSq_map_div, magnitude, hsq, div_self h.ne']
  rw [magnitude, this, Real.sqrt_one]

theorem embedComponent_ne_zero (s : Nat) : embedComponent s ≠ 0 := by
  intro h
  rw [embedComponent, mul_eq_zero] at h
  rcases h with h | h
  · rw [sub_eq_zero] at h
    have h2147 : (2147483647 : ℝ) ≠ 0 := by norm_num
    rw [div_eq_iff h2147] at h
    have : (2 * s : ℝ) = 2147483647 := by rw [two_mul]; nlinarith
    have : 2 * s = 2147483647 := by exact_mod_cast this
    omega
  · norm_num at h

theorem dot_self_eq_sumSq (a : List ℝ) :
    ((a.zip a).map (fun p => p.1 * p.2)).sum = sumSq a := by
  induction a with
  | nil => simp [sumSq]
  | cons x xs ih => rw [List.zip_cons_cons, List.map_cons, List.sum_cons,
      ih, sumSq_cons, sq]

theorem generateFakeEmbedding_length (t : List Nat) :
    (generateFakeEmbedding t).length = 1536 := by
  rw [generateFakeEmbedding, normalize, List.length_map, rawEmbedding,
    List.length_map, lcgStates_length]

theorem rawEmbedding_sumSq_pos (t : List Nat) :
    0 < sumSq (rawEmbedding t) := by
  have hlen : (rawEmbedding t).length = 1536 := by
    rw [rawEmbedding, List.length_map, lcgStates_length]
  have hne : rawEmbedding t ≠ [] := by
    intro h; rw [h] at hlen; simp at hlen
  obtain ⟨x, hx⟩ := List.exists_mem_of_ne_nil _ hne
  obtain ⟨s, _, rfl⟩ := List.mem_map.mp (by rw [rawEmbedding] at hx; exact hx)
  exact sumSq_pos_of_mem hx (embedComponent_ne_zero s)

theorem sumSq_replicate_zero (n : Nat) :
    sumSq (List.replicate n (0 : ℝ)) = 0 := by
  simp [sumSq]

/-- Per-note shape facts about the `toSearchResult` projection: the body is
the 200-character prefix plus a 3-character ellipsis when the original is
longer, and the object carries no score. -/
theorem toSearchResult_shape (n : NoteDoc) :
    (toSearchResult n).score = none ∧
    (toSearchResult n).id = n.id ∧
    (toSearchResult n).title = n.title ∧
    (toSearchResult n).createdAt = n.createdAt ∧
    (toSearchResult n).body.length =
      min n.body.length 200 + (if 200 < n.body.length then 3 else 0) := by
  refine ⟨rfl, rfl, rfl, rfl, ?_⟩
  rw [toSearchResult]
  by_cases h : 200 < n.body.length <;>
    simp [h, List.length_take, Nat.min_comm]

/-! ## Sample data for concrete counterexamples and witnesses -/

/-- A stored note used in the C1 counterexample. -/
def sampleNote : NoteDoc :=
  { id := "a", title := ['x'], body := ['y'], tags := [],
    createdAt := 0, updatedAt := 0 }

/-- A `PUT` payload that changes the title of `sampleNote`. -/
def samplePayload : UpdatePayload := { title := some ['z'] }

/-- A note whose body is 300 characters long. -/
def note300 : NoteDoc :=
  { id := "n", title := ['t'], body := List.replicate 300 'b', tags := [],
    createdAt := 0, updatedAt := 0 }

/-- A 1536-dimensional vector with a single nonzero component. -/
noncomputable def unitVec : List ℝ := 1 :: List.replicate 1535 0

theorem unitVec_length : unitVec.length = 1536 := by
  rw [unitVec, List.length_cons, List.length_replicate]

theorem one_mem_unitVec : (1 : ℝ) ∈ unitVec := by
  rw [unitVec]; exact List.mem_cons_self _ _

/-! ## Claims -/

/-- C1 (counterexample): a `PUT /notes/:id` request that changes the title
of an existing note succeeds (200 with the retitled note) yet issues no
vector-index operation at all — in particular no upsert — contradicting the
claim that every title/body-changing update re-embeds and re-upserts. -/
theorem putNote_title_change_no_upsert :
    (putNoteHandler [sampleNote] "a" samplePayload 5).2.1 =
      PutResponse.okNote (applyUpdate sampleNote samplePayload 5) ∧
    (applyUpdate sampleNote samplePayload 5).title ≠ sampleNote.title ∧
    (putNoteHandler [sampleNote] "a" samplePayload 5).2.2 = [] := by
  refine ⟨by decide, by decide, by decide⟩

/-- C1 (amended): the `PUT /notes/:id` path performs no index mirroring:
for every store, id, payload and timestamp the handler issues no
vector-index operation (the handler never calls into `vectorService`). -/
theorem putNote_never_touches_index (store : List NoteDoc) (id : String)
    (d : UpdatePayload) (now : Nat) :
    (putNoteHandler store id d now).2.2 = [] := by
  rcases h : updateNote store id d now with ⟨s2, r⟩
  cases r <;> simp [putNoteHandler, h]

/-- C2 (counterexample): starting from the one-character text `[1]` the
generator reaches the 31-bit state `jsStep (seedOf [1]) = 1103527590`; at
that state the JavaScript step — with its binary64 rounding of the product
— differs from the exact-integer value `(state * 1103515245 + 12345)`
masked to 31 bits (the double result is `377401600`, the exact value
`377401575`). -/
theorem jsStep_ne_exact_at_reachable_state :
    jsStep (seedOf [1]) < 2 ^ 31 ∧
    jsStep (jsStep (seedOf [1])) ≠ exactStep (jsStep (seedOf [1])) := by
  refine ⟨by decide, by decide⟩

/-- C2 (amended): the JavaScript step agrees with the exact-integer
recurrence (reduced modulo `2^31`, the effect of the 31-bit mask) exactly
on those states where the intermediate product stays below `2^53`, where
binary64 arithmetic is exact. -/
theorem jsStep_eq_exact_of_small (r : Nat)
    (h : r * 1103515245 + 12345 < 2 ^ 53) : jsStep r = exactStep r := by
  have h1 : r * 1103515245 < 2 ^ 53 := by omega
  rw [jsStep, exactStep, flRound_of_lt h1, flRound_of_lt h]

/-- C2 (witness): the agreement at the concrete state 1000. -/
theorem jsStep_eq_exact_witness :
    1000 * 1103515245 + 12345 < 2 ^ 53 ∧ jsStep 1000 = exactStep 1000 :=
  ⟨by norm_num, jsStep_eq_exact_of_small 1000 (by norm_num)⟩

/-- C3 (counterexample): a lexical search over a note with a 300-character
body returns its `toSearchResult` projection, whose body is 203 characters
(200 + the 3-character ellipsis) as claimed, but whose `score` field is
absent (`none`) — the projected object literal has no `score` property, so
the claimed SearchResult shape with a numeric score does not hold. -/
theorem searchResult_has_no_score :
    searchNotes ['q'] false (.ok [note300]) [] =
      .ok [toSearchResult note300] ∧
    (toSearchResult note300).score = none ∧
    (toSearchResult note300).body.length = 203 := by
  refine ⟨rfl, rfl, by decide⟩

/-- C3 (amended): every element returned by lexical search is the
`toSearchResult` projection of a stored note: it carries the note's id,
title and createdAt, a body truncated to 200 characters plus a 3-character
ellipsis when the original exceeds 200 characters — and no score field. -/
theorem searchNotes_result_shape (q : List Char)
    (textOutcome : Except String (List NoteDoc))
    (regexNotes : List NoteDoc) (out : List SearchResult)
    (hout : searchNotes q false textOutcome regexNotes = .ok out) :
    ∀ r ∈ out, ∃ n : NoteDoc, r = toSearchResult n ∧ r.score = none ∧
      r.id = n.id ∧ r.title = n.title ∧ r.createdAt = n.createdAt ∧
      r.body.length =
        min n.body.length 200 + (if 200 < n.body.length then 3 else 0) := by
  intro r hr
  have hmem : ∃ n : NoteDoc, r = toSearchResult n := by
    unfold searchNotes at hout
    split at hout
    · injection hout with h
      subst h
      exact absurd hr (List.not_mem_nil r)
    · split at hout
      · simp at *
      · split at hout <;>
          (injection hout with h
           subst h
           obtain ⟨n, _, rfl⟩ := List.mem_map.mp hr
           exact ⟨n, rfl⟩)
  obtain ⟨n, rfl⟩ := hmem
  obtain ⟨h1, h2, h3, h4, h5⟩ := toSearchResult_shape n
  exact ⟨n, rfl, h1, h2, h3, h4, h5⟩

/-- C3 (witness): the amended shape at the concrete 300-character note. -/
theorem searchNotes_result_shape_witness :
    ∃ n : NoteDoc, toSearchResult note300 = toSearchResult n ∧
      (toSearchResult note300).score = none ∧
      (toSearchResult note300).id = n.id ∧
      (toSearchResult note300).title = n.title ∧
      (toSearchResult note300).createdAt = n.createdAt ∧
      (toSearchResult note300).body.length =
        min n.body.length 200 + (if 200 < n.body.length then 3 else 0) :=
  searchNotes_result_shape ['q'] (.ok [note300]) [] [toSearchResult note300]
    rfl (toSearchResult note300) (by simp)

/-- C4: for every text that is not empty/whitespace-only, the synthetic
path of `generateEmbedding` succeeds with the (deterministic — the model is
a pure function, so a second call with the same text returns the identical
vector) fake embedding, of length exactly 1536 and of Euclidean norm
exactly 1 in the exact-real model of the normalisation. -/
theorem generateEmbedding_deterministic_unit (t : List Nat)
    (h : t.all jsWhitespace = false) :
    generateEmbedding t = .ok (generateFakeEmbedding t) ∧
    (generateFakeEmbedding t).length = 1536 ∧
    magnitude (generateFakeEmbedding t) = 1 := by
  refine ⟨by simp [generateEmbedding, h], generateFakeEmbedding_length t, ?_⟩
  rw [generateFakeEmbedding]
  exact magnitude_normalize (rawEmbedding_sumSq_pos t)

/-- C4 (witness): the concrete text "hi" (char codes 104, 105). -/
theorem generateEmbedding_witness :
    ([104, 105].all jsWhitespace = false) ∧
    (generateEmbedding [104, 105] = .ok (generateFakeEmbedding [104, 105]) ∧
      (generateFakeEmbedding [104, 105]).length = 1536 ∧
      magnitude (generateFakeEmbedding [104, 105]) = 1) :=
  ⟨by decide, generateEmbedding_deterministic_unit [104, 105] (by decide)⟩

/-- C5 (counterexample): on the all-zero vector of length 1536 the
similarity is `0 / (√0 * √0)` — `NaN` in JavaScript, `0` under the exact
model's division-by-zero convention — and in neither semantics is it
approximately 1, refuting the claim for the explicitly included all-zero
vector. -/
theorem cosineSimilarity_zero_vector :
    cosineSimilarity (List.replicate 1536 (0 : ℝ))
      (List.replicate 1536 (0 : ℝ)) = .ok 0 ∧ (0 : ℝ) ≠ 1 := by
  constructor
  · rw [cosineSimilarity, if_neg (by simp)]
    have h0 : sumSq (List.replicate 1536 (0 : ℝ)) = 0 :=
      sumSq_replicate_zero 1536
    rw [simValue, dot_self_eq_sumSq, h0, zero_div]
  · norm_num

/-- C5 (amended): for every vector of length 1536 with at least one nonzero
component, `cosineSimilarity a a = 1`. -/
theorem cosineSimilarity_self_eq_one (a : List ℝ) (h1 : a.length = 1536)
    (h2 : ∃ x ∈ a, x ≠ 0) : cosineSimilarity a a = .ok 1 := by
  obtain ⟨x, hx, hxne⟩ := h2
  have hpos : 0 < sumSq a := sumSq_pos_of_mem hx hxne
  rw [cosineSimilarity, if_neg (by simp)]
  rw [simValue, dot_self_eq_sumSq, Real.mul_self_sqrt hpos.le,
    div_self hpos.ne']

/-- C5 (witness): the vector `(1, 0, …, 0)` of length 1536. -/
theorem cosineSimilarity_self_witness :
    unitVec.length = 1536 ∧ (∃ x ∈ unitVec, x ≠ 0) ∧
    cosineSimilarity unitVec unitVec = .ok 1 :=
  ⟨unitVec_length, ⟨1, one_mem_unitVec, one_ne_zero⟩,
    cosineSimilarity_self_eq_one unitVec unitVec_length
      ⟨1, one_mem_unitVec, one_ne_zero⟩⟩

theorem simLE_trans : ∀ a b c : (String × List ℝ) × ℝ,
    simLE a b → simLE b c → simLE a c := by
  intro a b c hab hbc
  simp only [simLE, decide_eq_true_eq] at *
  exact le_trans hbc hab

theorem simLE_total : ∀ a b : (String × List ℝ) × ℝ,
    simLE a b || simLE b a := by
  intro a b
  simp only [simLE, Bool.or_eq_true, decide_eq_true_eq]
  exact le_total b.2 a.2

/-- C6: whenever every candidate has the query's dimension,
`findSimilarEmbeddings` succeeds and its result is the `limit`-prefix of a
list that (i) is a permutation of the score-annotated candidates, (ii) is
sorted descending by score, and (iii) keeps every tied pair of candidates
in its original order (stability of `Array.prototype.sort`); the result
therefore has `min limit n` elements, and equals the whole sorted list
whenever fewer than `limit` candidates exist. -/
theorem findSimilarEmbeddings_spec (q : List ℝ)
    (items : List (String × List ℝ)) (limit : Nat)
    (h : (items.all fun it => it.2.length = q.length) = true) :
    ∃ full : List ((String × List ℝ) × ℝ),
      findSimilarEmbeddings q items limit = .ok (full.take limit) ∧
      full.Perm (scored q items) ∧
      full.Pairwise (fun a b => b.2 ≤ a.2) ∧
      (∀ a b, [a, b].Sublist (scored q items) → a.2 = b.2 →
        [a, b].Sublist full) ∧
      (full.take limit).length = min limit items.length ∧
      (items.length ≤ limit → full.take limit = full) := by
  refine ⟨(scored q items).mergeSort simLE, ?_, ?_, ?_, ?_, ?_, ?_⟩
  · rw [findSimilarEmbeddings, if_pos h]
  · exact List.mergeSort_perm _ _
  · refine (List.sorted_mergeSort simLE_trans simLE_total _).imp ?_
    intro a b hab
    exact decide_eq_true_eq.mp hab
  · intro a b hsub heq
    refine List.pair_sublist_mergeSort simLE_trans simLE_total ?_ hsub
    exact decide_eq_true (le_of_eq heq.symm)
  · rw [List.length_take, List.length_mergeSort, scored, List.length_map]
  · intro hle
    refine List.take_of_length_le ?_
    rw [List.length_mergeSort, scored, List.length_map]
    exact hle

/-- C6 (witness): two tied candidates of the query's dimension. -/
theorem findSimilarEmbeddings_witness :
    (([("a", [(1 : ℝ)]), ("b", [(1 : ℝ)])].all
        fun it => it.2.length = [(1 : ℝ)].length) = true) ∧
    ∃ full : List ((String × List ℝ) × ℝ),
      findSimilarEmbeddings [(1 : ℝ)] [("a", [1]), ("b", [1])] 5 =
        .ok (full.take 5) ∧
      full.Perm (scored [(1 : ℝ)] [("a", [1]), ("b", [1])]) ∧
      full.Pairwise (fun a b => b.2 ≤ a.2) ∧
      (∀ a b, [a, b].Sublist (scored [(1 : ℝ)] [("a", [1]), ("b", [1])]) →
        a.2 = b.2 → [a, b].Sublist full) ∧
      (full.take 5).length = min 5 2 ∧
      (2 ≤ 5 → full.take 5 = full) :=
  ⟨by decide, findSimilarEmbeddings_spec [(1 : ℝ)] [("a", [1]), ("b", [1])]
    5 (by decide)⟩

/-- C7: whenever the health probe reports unhealthy (service uninitialized
or the connectivity probe failing), a non-blank semantic search request is
answered 503 Service Unavailable, and the handler places no lexical-search
call — it never silently substitutes lexical results. -/
theorem vectorSearch_unhealthy_503 (q : List Char) (isInit probeOk : Bool)
    (outcome : Except String (List VectorHit))
    (hq : (jsTrim q).isEmpty = false)
    (hh : healthCheck isInit probeOk = false) :
    vectorSearchHandler q (healthCheck isInit probeOk) outcome =
      (.unavailable, [.health]) ∧
    ServiceCall.lexicalQuery ∉
      (vectorSearchHandler q (healthCheck isInit probeOk) outcome).2 := by
  have h1 : vectorSearchHandler q (healthCheck isInit probeOk) outcome =
      (.unavailable, [.health]) := by
    rw [vectorSearchHandler.eq_def, if_neg (by simp [hq]),
      if_pos (by simp [hh])]
  refine ⟨h1, ?_⟩
  rw [h1]
  simp

/-- C7 (witness): the query "h" while the service is uninitialized. -/
theorem vectorSearch_unhealthy_witness :
    ((jsTrim ['h']).isEmpty = false) ∧ (healthCheck false true = false) ∧
    (vectorSearchHandler ['h'] (healthCheck false true) (.ok []) =
        (.unavailable, [.health]) ∧
      ServiceCall.lexicalQuery ∉
        (vectorSearchHandler ['h'] (healthCheck false true) (.ok [])).2) :=
  ⟨by decide, by decide,
    vectorSearch_unhealthy_503 ['h'] false true (.ok []) (by decide)
      (by decide)⟩

/-- C8: in default (non-regex) mode, a failing text-index query makes
lexical search return the regex results (projected through
`toSearchResult`) as a success — the text-index failure never surfaces. -/
theorem searchNotes_text_failure_falls_back (q : List Char) (e : String)
    (regexNotes : List NoteDoc) (hq : (jsTrim q).isEmpty = false) :
    searchNotes q false (.error e) regexNotes =
      .ok (regexNotes.map toSearchResult) := by
  rw [searchNotes, if_neg (by simp [hq]), if_neg (by simp)]

/-- C8 (witness): a concrete failing text query over a one-note store. -/
theorem searchNotes_fallback_witness :
    ((jsTrim ['h']).isEmpty = false) ∧
    searchNotes ['h'] false (.error "text index missing")
        [⟨"r1", ['a'], ['b'], [], 0, 0⟩] =
      .ok ([⟨"r1", ['a'], ['b'], [], 0, 0⟩].map toSearchResult) :=
  ⟨by decide, searchNotes_text_failure_falls_back ['h'] "text index missing"
    [⟨"r1", ['a'], ['b'], [], 0, 0⟩] (by decide)⟩

/-- C9: updating an existing note with `tags` omitted (`none`) leaves the
stored tags unchanged, while `tags = some []` clears them; the updated
document is both returned and written back to the store. -/
theorem updateNote_tags_semantics (store : List NoteDoc) (id : String)
    (d : UpdatePayload) (now : Nat) (n : NoteDoc)
    (hfind : store.find? (fun m => m.id = id) = some n) :
    (updateNote store id d now).2 = some (applyUpdate n d now) ∧
    (updateNote store id d now).1 =
      store.map (fun m => if m.id = id then applyUpdate n d now else m) ∧
    (d.tags = none → (applyUpdate n d now).tags = n.tags) ∧
    (d.tags = some [] → (applyUpdate n d now).tags = []) := by
  refine ⟨?_, ?_, ?_, ?_⟩
  · rw [updateNote, hfind]
  · rw [updateNote, hfind]
  · intro ht; simp [applyUpdate, ht]
  · intro ht; simp [applyUpdate, ht]

/-- C9 (witness): a concrete store with one note, updated with all fields
omitted. -/
theorem updateNote_tags_witness :
    ([(⟨"w", ['x'], ['y'], [['u']], 0, 0⟩ : NoteDoc)].find?
        (fun m => m.id = "w") = some ⟨"w", ['x'], ['y'], [['u']], 0, 0⟩) ∧
    ((updateNote [⟨"w", ['x'], ['y'], [['u']], 0, 0⟩] "w" {} 7).2 =
        some (applyUpdate ⟨"w", ['x'], ['y'], [['u']], 0, 0⟩ {} 7) ∧
      (updateNote [⟨"w", ['x'], ['y'], [['u']], 0, 0⟩] "w" {} 7).1 =
        [⟨"w", ['x'], ['y'], [['u']], 0, 0⟩].map
          (fun m => if m.id = "w"
            then applyUpdate ⟨"w", ['x'], ['y'], [['u']], 0, 0⟩ {} 7
            else m) ∧
      (({} : UpdatePayload).tags = none →
        (applyUpdate ⟨"w", ['x'], ['y'], [['u']], 0, 0⟩ {} 7).tags =
          [['u']]) ∧
      (({} : UpdatePayload).tags = some [] →
        (applyUpdate ⟨"w", ['x'], ['y'], [['u']], 0, 0⟩ {} 7).tags = [])) :=
  ⟨by decide, updateNote_tags_semantics _ "w" {} 7 _ (by decide)⟩

/-- C10: the synthetic embedding depends on the input text only through the
sum of its character codes: any two texts with the same sum (below `2^53`,
where the double-precision accumulation is exact) — in particular any
anagram pair — receive identical embeddings. -/
theorem embedding_depends_only_on_sum (t1 t2 : List Nat)
    (hsum : t1.sum = t2.sum) (hlt : t1.sum < 2 ^ 53) :
    generateFakeEmbedding t1 = generateFakeEmbedding t2 := by
  have h1 : seedOf t1 = seedOf t2 := by
    rw [seedOf_eq_sum hlt, seedOf_eq_sum (hsum ▸ hlt), hsum]
  rw [generateFakeEmbedding, generateFakeEmbedding, rawEmbedding,
    rawEmbedding, h1]

/-- C10 (witness): the distinct texts `[1, 2]` and `[3]` share the
character-code sum 3 and receive the same embedding. -/
theorem embedding_sum_witness :
    ([1, 2] : List Nat).sum = ([3] : List Nat).sum ∧
    ([1, 2] : List Nat).sum < 2 ^ 53 ∧
    ([1, 2] : List Nat) ≠ [3] ∧
    generateFakeEmbedding [1, 2] = generateFakeEmbedding [3] :=
  ⟨by decide, by decide, by decide,
    embedding_depends_only_on_sum [1, 2] [3] (by decide) (by decide)⟩

end ModNotes
